import Mathlib

set_option linter.all false

namespace KIT

/-- Where a position is measured from (src/main.rs lines 35-40). -/
inductive RelativeTo where
  | canvas : RelativeTo
  | layer : String → RelativeTo
  deriving DecidableEq, Repr

/-- A layer position (src/main.rs lines 42-48). -/
structure Position where
  x : Nat
  y : Nat
  relative_to : RelativeTo
  deriving DecidableEq, Repr

/-- Measured layer size (src/main.rs lines 346-349, LayerDimensions). -/
structure LayerDimensions where
  width : Nat
  height : Nat
  deriving DecidableEq, Repr

/-- Layer identity as the layout engine sees it (src/main.rs lines 324-329):
    a name plus the optionally declared template position. -/
structure LayerInfo where
  name : String
  position : Option Position
  deriving DecidableEq, Repr

/-- One entry of the layers_info slice handed to calculate_positions. -/
abbrev Item := LayerDimensions × LayerInfo

/-- src/main.rs lines 251-257. -/
inductive LayoutType where
  | vertical
  | horizontal
  | grid
  deriving DecidableEq, Repr

/-- src/main.rs lines 267-273. -/
inductive Align where
  | left
  | center
  | right
  deriving DecidableEq, Repr

/-- src/main.rs lines 259-265. -/
structure GroupPosition where
  x : Nat
  y : Nat
  align : Align
  deriving DecidableEq, Repr

/-- src/main.rs lines 279-285. -/
inductive Distribution where
  | spaceBetween
  | spaceAround
  | spaceEvenly
  deriving DecidableEq, Repr

/-- src/main.rs lines 287-291. -/
structure DistributionBounds where
  width : Nat
  height : Nat
  deriving DecidableEq, Repr

/-- src/main.rs lines 293-301. -/
structure DistributionConfig where
  horizontal : Option Distribution
  vertical : Option Distribution
  bounds : Option DistributionBounds
  deriving DecidableEq, Repr

/-- src/main.rs lines 307-318. In the template schema spacing defaults to 0
    and columns defaults to 1 when the fields are absent; an explicit value
    of either is accepted unchanged. -/
structure GroupLayout where
  layout_type : LayoutType
  position : GroupPosition
  spacing : Nat
  columns : Nat
  distribution : Option DistributionConfig
  deriving DecidableEq, Repr

/-- A group as far as calculate_positions reads it (src/main.rs lines
    331-336). The layers vector itself is never read by calculate_positions,
    which instead receives the measured layers_info slice as an argument. -/
structure Group where
  name : String
  layout : GroupLayout
  deriving DecidableEq, Repr

/-- Maximum of a list of naturals, 0 when empty: models the Rust iterator
    idiom .max().unwrap_or(0). -/
def listMax (l : List Nat) : Nat := l.foldr max 0

/-- Every k-th element starting at the head: models Iterator::step_by(k).
    The source only reaches step_by with columns ≥ 1 (a Grid with
    columns = 0 panics earlier, in the rows computation). -/
def takeEvery {α : Type} (k : Nat) : List α → List α
  | [] => []
  | x :: xs => x :: takeEvery k (List.drop (k - 1) xs)
termination_by l => l.length
decreasing_by
  simp [List.length_drop]
  omega

/-- src/main.rs lines 388-397: GroupPosition::get_aligned_position. Rust
    u32 saturating_sub is Nat truncated subtraction; y is never adjusted. -/
def GroupPosition.get_aligned_position (gp : GroupPosition)
    (content container : Nat × Nat) : Nat × Nat :=
  let x := match gp.align with
    | Align.left => gp.x
    | Align.center => gp.x + (container.1 - content.1) / 2
    | Align.right => gp.x + (container.1 - content.1)
  (x, gp.y)

/-- Stage 1 of calculate_positions (src/main.rs lines 413-467): the
    aggregate content extent of the group. -/
def totalExtent (g : Group) (layers_info : List Item) : Nat × Nat :=
  match g.layout.layout_type with
  | LayoutType.horizontal =>
      ((layers_info.map (fun p => p.1.width)).sum
         + (layers_info.length - 1) * g.layout.spacing,
       listMax (layers_info.map (fun p => p.1.height)))
  | LayoutType.grid =>
      let columns := g.layout.columns
      let rows := (layers_info.length + columns - 1) / columns
      let maxWidthPerColumn := (List.range columns).map (fun col =>
        listMax ((takeEvery columns (layers_info.drop col)).map (fun p => p.1.width)))
      let maxHeightPerRow := (List.range rows).map (fun row =>
        listMax (((layers_info.drop (row * columns)).take columns).map (fun p => p.1.height)))
      (maxWidthPerColumn.sum + (columns - 1) * g.layout.spacing,
       maxHeightPerRow.sum + (rows - 1) * g.layout.spacing)
  | LayoutType.vertical =>
      (listMax (layers_info.map (fun p => p.1.width)),
       (layers_info.map (fun p => p.1.height)).sum
         + (layers_info.length - 1) * g.layout.spacing)

/-- Stage 2 of calculate_positions (src/main.rs lines 469-486): the aligned
    base x, called current_x in the source. When a DistributionConfig is
    present without bounds, no alignment call is made and the declared
    base x is kept; the base y is never adjusted in any case. -/
def currentX (g : Group) (totalW totalH : Nat) : Nat :=
  match g.layout.distribution with
  | some dc =>
      match dc.bounds with
      | some b =>
          (g.layout.position.get_aligned_position (totalW, totalH) (b.width, b.height)).1
      | none => g.layout.position.x
  | none =>
      (g.layout.position.get_aligned_position (totalW, totalH) (totalW, totalH)).1

/-- src/main.rs lines 496-507: distribution bounds, defaulting to the first
    row's width sum and the first column's height sum. -/
def gridBounds (dc : DistributionConfig) (columns rows : Nat)
    (layers_info : List Item) : Nat × Nat :=
  match dc.bounds with
  | some b => (b.width, b.height)
  | none =>
      (((layers_info.take columns).map (fun p => p.1.width)).sum,
       (((takeEvery columns layers_info).take rows).map (fun p => p.1.height)).sum)

/-- src/main.rs lines 510-537: horizontal grid spacing under a
    DistributionConfig. Note both SpaceAround and SpaceEvenly divide the
    slack by columns + 1. -/
def grid_h_spacing (dc : DistributionConfig) (spacing columns boundsW : Nat)
    (layers_info : List Item) : Nat :=
  match dc.horizontal with
  | some Distribution.spaceBetween =>
      let contentWidth := ((layers_info.take columns).map (fun p => p.1.width)).sum
      if columns > 1 then (boundsW - contentWidth) / (columns - 1) else 0
  | some Distribution.spaceAround =>
      let contentWidth := ((layers_info.take columns).map (fun p => p.1.width)).sum
      (boundsW - contentWidth) / (columns + 1)
  | some Distribution.spaceEvenly =>
      let contentWidth := ((layers_info.take columns).map (fun p => p.1.width)).sum
      (boundsW - contentWidth) / (columns + 1)
  | none => spacing

/-- src/main.rs lines 539-569: vertical grid spacing under a
    DistributionConfig. As on the horizontal axis, SpaceAround and
    SpaceEvenly both divide the slack by rows + 1. -/
def grid_v_spacing (dc : DistributionConfig) (spacing columns rows boundsH : Nat)
    (layers_info : List Item) : Nat :=
  match dc.vertical with
  | some Distribution.spaceBetween =>
      let contentHeight :=
        (((takeEvery columns layers_info).take rows).map (fun p => p.1.height)).sum
      if rows > 1 then (boundsH - contentHeight) / (rows - 1) else 0
  | some Distribution.spaceAround =>
      let contentHeight :=
        (((takeEvery columns layers_info).take rows).map (fun p => p.1.height)).sum
      (boundsH - contentHeight) / (rows + 1)
  | some Distribution.spaceEvenly =>
      let contentHeight :=
        (((takeEvery columns layers_info).take rows).map (fun p => p.1.height)).sum
      (boundsH - contentHeight) / (rows + 1)
  | none => spacing

/-- src/main.rs lines 572-575: initial x offset (init_x). -/
def gridInitX (dc : DistributionConfig) (hSpacing : Nat) : Nat :=
  match dc.horizontal with
  | some Distribution.spaceAround => hSpacing
  | some Distribution.spaceEvenly => hSpacing
  | _ => 0

/-- src/main.rs lines 576-579: initial y offset (init_y). -/
def gridInitY (dc : DistributionConfig) (vSpacing : Nat) : Nat :=
  match dc.vertical with
  | some Distribution.spaceAround => vSpacing
  | some Distribution.spaceEvenly => vSpacing
  | _ => 0

/-- src/main.rs lines 581-602: the grid placement loop under a
    DistributionConfig. startX is current_x + init_x, the x each new row
    resets to; the state (x, y, col) mirrors the mutable locals. -/
def gridPlaceLoop (columns hSpacing vSpacing startX : Nat) :
    Nat → Nat → Nat → List Item → List Position
  | _, _, _, [] => []
  | x, y, col, (dims, _) :: rest =>
      { x := x, y := y, relative_to := RelativeTo.canvas } ::
      (if col + 1 ≥ columns then
        gridPlaceLoop columns hSpacing vSpacing startX
          startX (y + dims.height + vSpacing) 0 rest
      else
        gridPlaceLoop columns hSpacing vSpacing startX
          (x + dims.width + hSpacing) y (col + 1) rest)

/-- src/main.rs lines 603-621: grid fallback without a DistributionConfig,
    carrying the enumerate index i. -/
def gridFallback (cx cy spacing columns : Nat) :
    Nat → List Item → List Position
  | _, [] => []
  | i, (dims, _) :: rest =>
      { x := cx + (i % columns) * (dims.width + spacing),
        y := cy + (i / columns) * (dims.height + spacing),
        relative_to := RelativeTo.canvas } ::
      gridFallback cx cy spacing columns (i + 1) rest

/-- src/main.rs lines 623-632: vertical placement, accumulating y_offset. -/
def verticalPlace (cx cy spacing : Nat) : Nat → List Item → List Position
  | _, [] => []
  | yOff, (dims, _) :: rest =>
      { x := cx, y := cy + yOff, relative_to := RelativeTo.canvas } ::
      verticalPlace cx cy spacing (yOff + dims.height + spacing) rest

/-- src/main.rs lines 634-644: horizontal placement, accumulating x_offset. -/
def horizontalPlace (cx cy spacing : Nat) : Nat → List Item → List Position
  | _, [] => []
  | xOff, (dims, _) :: rest =>
      { x := cx + xOff, y := cy, relative_to := RelativeTo.canvas } ::
      horizontalPlace cx cy spacing (xOff + dims.width + spacing) rest

/-- src/main.rs lines 652-655: index of the first layers_info item whose
    name matches, carrying the enumerate index. -/
def findNameIdx (name : String) : Nat → List Item → Option Nat
  | _, [] => none
  | i, (_, info) :: rest =>
      if info.name = name then some i else findNameIdx name (i + 1) rest

/-- src/main.rs lines 648-659: collect (target index, referenced index)
    pairs by scanning the freshly computed positions. -/
def relativeAdjustmentsAux (layers_info : List Item) :
    Nat → List Position → List (Nat × Nat)
  | _, [] => []
  | i, pos :: rest =>
      match pos.relative_to with
      | RelativeTo.layer layerName =>
          match findNameIdx layerName 0 layers_info with
          | some refIdx => (i, refIdx) :: relativeAdjustmentsAux layers_info (i + 1) rest
          | none => relativeAdjustmentsAux layers_info (i + 1) rest
      | RelativeTo.canvas => relativeAdjustmentsAux layers_info (i + 1) rest

/-- The relative-adjustment collection pass over the computed positions. -/
def relative_adjustments (positions : List Position) (layers_info : List Item) :
    List (Nat × Nat) :=
  relativeAdjustmentsAux layers_info 0 positions

/-- src/main.rs lines 661-666: overwrite each target position's x,y with
    the referenced position's current x,y (the reference is read from the
    partially updated vector, as in the source). -/
def apply_relative (positions : List Position) (adjs : List (Nat × Nat)) :
    List Position :=
  adjs.foldl (fun ps ti =>
    let refPos := ps.getD ti.2 { x := 0, y := 0, relative_to := RelativeTo.canvas }
    let tgt := ps.getD ti.1 { x := 0, y := 0, relative_to := RelativeTo.canvas }
    ps.set ti.1 { tgt with x := refPos.x, y := refPos.y }) positions

/-- Stages 1-3 of Group::calculate_positions (src/main.rs lines 408-645):
    the positions as pushed by the placement branches, before the
    relative-adjustment pass. -/
def rawPositions (g : Group) (layers_info : List Item) : List Position :=
  let te := totalExtent g layers_info
  let cx := currentX g te.1 te.2
  let cy := g.layout.position.y
  match g.layout.layout_type with
  | LayoutType.grid =>
      match g.layout.distribution with
      | some dc =>
          let columns := g.layout.columns
          let rows := (layers_info.length + columns - 1) / columns
          let bounds := gridBounds dc columns rows layers_info
          let hs := grid_h_spacing dc g.layout.spacing columns bounds.1 layers_info
          let vs := grid_v_spacing dc g.layout.spacing columns rows bounds.2 layers_info
          gridPlaceLoop columns hs vs (cx + gridInitX dc hs)
            (cx + gridInitX dc hs) (cy + gridInitY dc vs) 0 layers_info
      | none => gridFallback cx cy g.layout.spacing g.layout.columns 0 layers_info
  | LayoutType.vertical => verticalPlace cx cy g.layout.spacing 0 layers_info
  | LayoutType.horizontal => horizontalPlace cx cy g.layout.spacing 0 layers_info

/-- Group::calculate_positions (src/main.rs lines 408-669). A Grid layout
    with an explicit columns = 0 panics in Rust: the rows computation
    (len + columns - 1) / columns divides by zero (and underflows usize
    first when len = 0); that panic is modelled as none. On every other
    input the function is total and returns the stage-3 positions with the
    relative-adjustment pass of lines 648-666 applied. -/
def calculate_positions (g : Group) (layers_info : List Item) :
    Option (List Position) :=
  if g.layout.layout_type = LayoutType.grid ∧ g.layout.columns = 0 then none
  else
    let raw := rawPositions g layers_info
    some (apply_relative raw (relative_adjustments raw layers_info))

/-- Spec-side definition, for the refinement comparison of claim C8 only;
    follows the spec's words: the container bound is DistributionConfig.bounds
    if present, else the Stage-1 aggregate extent. -/
def specContainerWidth (g : Group) (totalW : Nat) : Nat :=
  match g.layout.distribution with
  | some dc =>
      match dc.bounds with
      | some b => b.width
      | none => totalW
  | none => totalW

/-- Spec-side definition, for the refinement comparison of claim C8 only;
    follows the spec's Stage-2 table: Left leaves the base x unchanged,
    Center adds half the slack, Right adds the full slack. -/
def specStage2BaseX (a : Align) (baseX slack : Nat) : Nat :=
  match a with
  | Align.left => baseX
  | Align.center => baseX + slack / 2
  | Align.right => baseX + slack

/-- The measured dimensions of an item list, forgetting layer identities. -/
def dimsOf (l : List Item) : List LayerDimensions := l.map Prod.fst

/-- A measured item with no declared template position. -/
def mkItem (w h : Nat) (n : String) : Item :=
  ({ width := w, height := h }, { name := n, position := none })

/- Concrete inputs used by the claim witnesses and counterexamples. -/

def c1group : Group :=
  { name := "g1",
    layout := { layout_type := LayoutType.vertical,
                position := { x := 0, y := 0, align := Align.left },
                spacing := 5,
                columns := 1,
                distribution := none } }

def c1items : List Item := [mkItem 7 10 "a", mkItem 9 20 "b", mkItem 11 30 "c"]

def c1ps : List Position :=
  [{ x := 0, y := 0, relative_to := RelativeTo.canvas },
   { x := 0, y := 15, relative_to := RelativeTo.canvas },
   { x := 0, y := 40, relative_to := RelativeTo.canvas }]

def c2group : Group :=
  { name := "g2",
    layout := { layout_type := LayoutType.horizontal,
                position := { x := 0, y := 0, align := Align.left },
                spacing := 0,
                columns := 1,
                distribution := some { horizontal := some Distribution.spaceBetween,
                                       vertical := none,
                                       bounds := some { width := 200, height := 60 } } } }

def c2items : List Item := [mkItem 40 50 "a", mkItem 60 60 "b"]

def c3group : Group :=
  { name := "g3",
    layout := { layout_type := LayoutType.vertical,
                position := { x := 0, y := 0, align := Align.left },
                spacing := 0,
                columns := 1,
                distribution := none } }

def c3items : List Item :=
  [({ width := 10, height := 10 }, { name := "A", position := none }),
   ({ width := 10, height := 10 },
    { name := "B",
      position := some { x := 5, y := 5, relative_to := RelativeTo.layer "A" } })]

def c4group : Group :=
  { name := "g4",
    layout := { layout_type := LayoutType.vertical,
                position := { x := 0, y := 0, align := Align.left },
                spacing := 0,
                columns := 1,
                distribution := none } }

def c4items : List Item :=
  [({ width := 10, height := 10 },
    { name := "B",
      position := some { x := 5, y := 5, relative_to := RelativeTo.layer "A" } })]

def c5group : Group :=
  { name := "g5",
    layout := { layout_type := LayoutType.grid,
                position := { x := 0, y := 0, align := Align.left },
                spacing := 0,
                columns := 2,
                distribution := some { horizontal := some Distribution.spaceEvenly,
                                       vertical := none,
                                       bounds := some { width := 220, height := 100 } } } }

def c5items : List Item := [mkItem 40 50 "a", mkItem 60 60 "b"]

def c5wdc : DistributionConfig :=
  { horizontal := some Distribution.spaceEvenly,
    vertical := some Distribution.spaceEvenly,
    bounds := none }

def c6wgroup : Group :=
  { name := "g6",
    layout := { layout_type := LayoutType.vertical,
                position := { x := 0, y := 0, align := Align.left },
                spacing := 2,
                columns := 1,
                distribution := none } }

def c6witem : Item := mkItem 10 10 "w"

def c6wdc : DistributionConfig :=
  { horizontal := some Distribution.spaceBetween,
    vertical := some Distribution.spaceBetween,
    bounds := none }

def c7group : Group :=
  { name := "g7",
    layout := { layout_type := LayoutType.grid,
                position := { x := 0, y := 0, align := Align.left },
                spacing := 0,
                columns := 0,
                distribution := none } }

def c7items : List Item := [mkItem 10 10 "a"]

def c7wgroup : Group :=
  { name := "g7w",
    layout := { layout_type := LayoutType.grid,
                position := { x := 0, y := 0, align := Align.left },
                spacing := 0,
                columns := 1,
                distribution := none } }

def c8wgroup : Group :=
  { name := "g8",
    layout := { layout_type := LayoutType.vertical,
                position := { x := 3, y := 4, align := Align.center },
                spacing := 0,
                columns := 1,
                distribution := none } }

def c9group : Group :=
  { name := "g9",
    layout := { layout_type := LayoutType.grid,
                position := { x := 0, y := 0, align := Align.left },
                spacing := 10,
                columns := 2,
                distribution := none } }

def c9items : List Item :=
  [mkItem 50 50 "a", mkItem 50 50 "b", mkItem 50 50 "c", mkItem 50 50 "d"]

def c10group : Group :=
  { name := "g10",
    layout := { layout_type := LayoutType.vertical,
                position := { x := 1, y := 2, align := Align.left },
                spacing := 3,
                columns := 1,
                distribution := none } }

def c10l1 : List Item :=
  [({ width := 10, height := 10 }, { name := "A", position := none }),
   ({ width := 20, height := 20 },
    { name := "B",
      position := some { x := 99, y := 99, relative_to := RelativeTo.layer "A" } })]

def c10l2 : List Item :=
  [({ width := 10, height := 10 },
    { name := "A",
      position := some { x := 1, y := 2, relative_to := RelativeTo.canvas } }),
   ({ width := 20, height := 20 }, { name := "B", position := none })]

/- Helper lemmas about the placement branches. -/

theorem verticalPlace_length (cx cy s : Nat) (l : List Item) :
    ∀ yOff, (verticalPlace cx cy s yOff l).length = l.length := by
  induction l with
  | nil => intro yOff; rfl
  | cons a rest ih =>
      intro yOff
      cases a with
      | mk dims info => simp [verticalPlace, ih]

theorem horizontalPlace_length (cx cy s : Nat) (l : List Item) :
    ∀ xOff, (horizontalPlace cx cy s xOff l).length = l.length := by
  induction l with
  | nil => intro xOff; rfl
  | cons a rest ih =>
      intro xOff
      cases a with
      | mk dims info => simp [horizontalPlace, ih]

theorem gridFallback_length (cx cy s columns : Nat) (l : List Item) :
    ∀ i, (gridFallback cx cy s columns i l).length = l.length := by
  induction l with
  | nil => intro i; rfl
  | cons a rest ih =>
      intro i
      cases a with
      | mk dims info => simp [gridFallback, ih]

theorem gridPlaceLoop_length (columns hs vs startX : Nat) (l : List Item) :
    ∀ x y col, (gridPlaceLoop columns hs vs startX x y col l).length = l.length := by
  induction l with
  | nil => intro x y col; rfl
  | cons a rest ih =>
      intro x y col
      cases a with
      | mk dims info =>
          simp only [gridPlaceLoop, List.length_cons]
          split <;> simp [ih]

theorem apply_relative_length (ps : List Position) (adjs : List (Nat × Nat)) :
    (apply_relative ps adjs).length = ps.length := by
  induction adjs generalizing ps with
  | nil => rfl
  | cons a rest ih =>
      simp only [apply_relative, List.foldl_cons] at ih ⊢
      rw [ih]
      simp

theorem rawPositions_length (g : Group) (l : List Item) :
    (rawPositions g l).length = l.length := by
  simp only [rawPositions]
  rcases hlt : g.layout.layout_type with _ | _ | _ <;>
    rcases hd : g.layout.distribution with _ | dc <;>
      simp [hlt, hd, verticalPlace_length, horizontalPlace_length,
            gridFallback_length, gridPlaceLoop_length]

theorem verticalPlace_canvas (cx cy s : Nat) (l : List Item) :
    ∀ yOff, ∀ p ∈ verticalPlace cx cy s yOff l, p.relative_to = RelativeTo.canvas := by
  induction l with
  | nil => intro yOff p hp; simp [verticalPlace] at hp
  | cons a rest ih =>
      intro yOff p hp
      cases a with
      | mk dims info =>
          simp only [verticalPlace, List.mem_cons] at hp
          rcases hp with rfl | hp
          · rfl
          · exact ih _ p hp

theorem horizontalPlace_canvas (cx cy s : Nat) (l : List Item) :
    ∀ xOff, ∀ p ∈ horizontalPlace cx cy s xOff l, p.relative_to = RelativeTo.canvas := by
  induction l with
  | nil => intro xOff p hp; simp [horizontalPlace] at hp
  | cons a rest ih =>
      intro xOff p hp
      cases a with
      | mk dims info =>
          simp only [horizontalPlace, List.mem_cons] at hp
          rcases hp with rfl | hp
          · rfl
          · exact ih _ p hp

theorem gridFallback_canvas (cx cy s columns : Nat) (l : List Item) :
    ∀ i, ∀ p ∈ gridFallback cx cy s columns i l, p.relative_to = RelativeTo.canvas := by
  induction l with
  | nil => intro i p hp; simp [gridFallback] at hp
  | cons a rest ih =>
      intro i p hp
      cases a with
      | mk dims info =>
          simp only [gridFallback, List.mem_cons] at hp
          rcases hp with rfl | hp
          · rfl
          · exact ih _ p hp

theorem gridPlaceLoop_canvas (columns hs vs startX : Nat) (l : List Item) :
    ∀ x y col, ∀ p ∈ gridPlaceLoop columns hs vs startX x y col l,
      p.relative_to = RelativeTo.canvas := by
  induction l with
  | nil => intro x y col p hp; simp [gridPlaceLoop] at hp
  | cons a rest ih =>
      intro x y col p hp
      cases a with
      | mk dims info =>
          simp only [gridPlaceLoop, List.mem_cons] at hp
          rcases hp with rfl | hp
          · rfl
          · split at hp
            · exact ih _ _ _ p hp
            · exact ih _ _ _ p hp

theorem rawPositions_canvas (g : Group) (l : List Item) :
    ∀ p ∈ rawPositions g l, p.relative_to = RelativeTo.canvas := by
  simp only [rawPositions]
  rcases hlt : g.layout.layout_type with _ | _ | _ <;>
    rcases hd : g.layout.distribution with _ | dc <;>
      simp only [hlt, hd] <;>
        first
        | exact verticalPlace_canvas _ _ _ _ _
        | exact horizontalPlace_canvas _ _ _ _ _
        | exact gridFallback_canvas _ _ _ _ _ _
        | exact gridPlaceLoop_canvas _ _ _ _ _ _ _ _

theorem relativeAdjustmentsAux_eq_nil (items : List Item) (ps : List Position)
    (h : ∀ p ∈ ps, p.relative_to = RelativeTo.canvas) :
    ∀ i, relativeAdjustmentsAux items i ps = [] := by
  induction ps with
  | nil => intro i; rfl
  | cons p rest ih =>
      intro i
      have hp : p.relative_to = RelativeTo.canvas := h p (by simp)
      simp only [relativeAdjustmentsAux, hp]
      exact ih (fun q hq => h q (by simp [hq])) (i + 1)

/-- On every input the source does not panic on, calculate_positions returns
    exactly the stage-3 positions: the relative-adjustment pass never fires,
    because every freshly pushed position carries relative_to = Canvas. -/
theorem calculate_positions_eq_raw (g : Group) (l : List Item)
    (h : ¬(g.layout.layout_type = LayoutType.grid ∧ g.layout.columns = 0)) :
    calculate_positions g l = some (rawPositions g l) := by
  simp only [calculate_positions, if_neg h]
  rw [relative_adjustments,
      relativeAdjustmentsAux_eq_nil l (rawPositions g l) (rawPositions_canvas g l) 0]
  rfl

theorem rawPositions_nil (g : Group) : rawPositions g [] = [] := by
  simp only [rawPositions]
  rcases hlt : g.layout.layout_type with _ | _ | _ <;>
    rcases hd : g.layout.distribution with _ | dc <;>
      simp [hlt, hd, verticalPlace, horizontalPlace, gridFallback, gridPlaceLoop]

/-- Claim C1: for every LayoutPolicy and every ordered list of measured
    layers, calculate_positions returns exactly one Position per input
    layer, index-aligned with the input, for all three LayoutKinds with or
    without a DistributionConfig: whenever the engine returns a list its
    length equals the input length, and positions are pushed walking the
    input in order. -/
theorem c1_length_preserved (g : Group) (layers_info : List Item)
    (ps : List Position)
    (h : calculate_positions g layers_info = some ps) :
    ps.length = layers_info.length := by
  by_cases hg : g.layout.layout_type = LayoutType.grid ∧ g.layout.columns = 0
  · rw [calculate_positions, if_pos hg] at h
    exact Option.noConfusion h
  · rw [calculate_positions_eq_raw g layers_info hg] at h
    injection h with h
    rw [← h]
    exact rawPositions_length g layers_info

theorem c1_length_preserved_witness : c1ps.length = c1items.length :=
  c1_length_preserved c1group c1items c1ps (by decide)

/-- Claim C2, counterexample: for a Horizontal layout of two items with
    widths 40 and 60, container bound width 200, SpaceBetween on the
    horizontal axis and base (0,0), the computed x positions are [0, 40],
    not the [0, 140] the claim states: the DistributionConfig's modes are
    only handled under the Grid branch (src/main.rs 488-645), so the flat
    spacing 0 is used. -/
theorem c2_counterexample :
    (calculate_positions c2group c2items).map (fun ps => ps.map Position.x)
        = some [0, 40]
    ∧ (calculate_positions c2group c2items).map (fun ps => ps.map Position.x)
        ≠ some [0, 140] := by decide

/-- Claim C2, amended: for a Horizontal layout the DistributionConfig modes
    never produce spacing (distribution-based spacing exists only in the
    Grid branch); items are placed with the flat spacing from the aligned
    base, and at the claim's input the x positions are [0, 40]. -/
theorem c2_amended (g : Group) (l : List Item)
    (hl : g.layout.layout_type = LayoutType.horizontal) :
    calculate_positions g l
      = some (horizontalPlace
          (currentX g (totalExtent g l).1 (totalExtent g l).2)
          g.layout.position.y g.layout.spacing 0 l)
    ∧ calculate_positions c2group c2items
        = some [{ x := 0, y := 0, relative_to := RelativeTo.canvas },
                { x := 40, y := 0, relative_to := RelativeTo.canvas }] := by
  constructor
  · rw [calculate_positions_eq_raw g l (fun hc => by simp [hl] at hc)]
    simp [rawPositions, hl]
  · decide

theorem c2_amended_witness :
    calculate_positions c2group c2items
      = some [{ x := 0, y := 0, relative_to := RelativeTo.canvas },
              { x := 40, y := 0, relative_to := RelativeTo.canvas }] :=
  (c2_amended c2group c2items (by decide)).2

/-- Claim C3, evaluation at the failing input: layer B declares
    relativeTo Layer "A" and a layer named A exists, yet B's returned
    position is its vertical-layout slot (0,10), not A's pre-resolution
    position (0,0). The relative-adjustment pass (src/main.rs 648-666)
    scans the freshly computed positions, all of which carry
    RelativeTo::Canvas, so the declared relative_to of the layers is never
    read and the pass never fires. -/
theorem c3_relative_pass_dead :
    calculate_positions c3group c3items
        = some [{ x := 0, y := 0, relative_to := RelativeTo.canvas },
                { x := 0, y := 10, relative_to := RelativeTo.canvas }]
    ∧ calculate_positions c3group c3items
        ≠ some [{ x := 0, y := 0, relative_to := RelativeTo.canvas },
                { x := 0, y := 0, relative_to := RelativeTo.canvas }] := by decide

/-- Claim C4, counterexample: a position whose relativeTo names a layer
    that does not exist among the group's items produces no error of any
    kind: calculate_positions returns Vec of Position with no error channel,
    and at this dangling-reference input it returns the normal layout
    positions; nothing propagates to the driver and the render proceeds. -/
theorem c4_counterexample :
    calculate_positions c4group c4items
      = some [{ x := 0, y := 0, relative_to := RelativeTo.canvas }] := by decide

/-- Claim C4, amended: a dangling relativeTo reference is silently ignored
    rather than surfaced as an error: for every non-Grid group (and every
    item list, dangling references included) calculate_positions returns a
    result. -/
theorem c4_total_non_grid (g : Group) (layers_info : List Item)
    (h : g.layout.layout_type ≠ LayoutType.grid) :
    (calculate_positions g layers_info).isSome = true := by
  rw [calculate_positions_eq_raw g layers_info (fun hc => h hc.1)]
  rfl

theorem c4_total_non_grid_witness :
    (calculate_positions c4group c4items).isSome = true :=
  c4_total_non_grid c4group c4items (by decide)

/-- Claim C5, counterexample: Grid with 2 columns, first-row content width
    100, bound width 220 and SpaceEvenly. The claim's slack/(n+2) would give
    120/4 = 30 for both the initial offset and the spacing, placing items at
    x = [30, 100]; the code divides by columns+1 (src/main.rs 529-535),
    giving 120/3 = 40 and x positions [40, 120]. -/
theorem c5_counterexample :
    (calculate_positions c5group c5items).map (fun ps => ps.map Position.x)
        = some [40, 120]
    ∧ (220 - 100) / (2 + 2) = 30
    ∧ (calculate_positions c5group c5items).map (fun ps => ps.map Position.x)
        ≠ some [30, 100] := by decide

/-- Claim C5, amended: under SpaceEvenly both the initial offset and the
    inter-item spacing equal slack/(n+1) — identical to SpaceAround — where
    n is columns on the horizontal axis and rows on the vertical axis and
    slack is the bound minus the first-row/first-column content extent,
    floored at zero; not slack/(n+2). -/
theorem c5_amended (dc : DistributionConfig)
    (spacing columns rows boundsW boundsH : Nat) (l : List Item)
    (hh : dc.horizontal = some Distribution.spaceEvenly)
    (hv : dc.vertical = some Distribution.spaceEvenly) :
    grid_h_spacing dc spacing columns boundsW l
        = (boundsW - ((l.take columns).map (fun p => p.1.width)).sum) / (columns + 1)
    ∧ grid_v_spacing dc spacing columns rows boundsH l
        = (boundsH - (((takeEvery columns l).take rows).map (fun p => p.1.height)).sum)
            / (rows + 1)
    ∧ gridInitX dc (grid_h_spacing dc spacing columns boundsW l)
        = grid_h_spacing dc spacing columns boundsW l
    ∧ gridInitY dc (grid_v_spacing dc spacing columns rows boundsH l)
        = grid_v_spacing dc spacing columns rows boundsH l := by
  refine ⟨?_, ?_, ?_, ?_⟩ <;>
    simp [grid_h_spacing, grid_v_spacing, gridInitX, gridInitY, hh, hv]

theorem c5_amended_witness :
    grid_h_spacing c5wdc 0 2 220 c5items
      = (220 - ((c5items.take 2).map (fun p => p.1.width)).sum) / (2 + 1) :=
  (c5_amended c5wdc 0 2 1 220 100 c5items (by decide) (by decide)).1

/-- Claim C6: an empty item list produces an empty position list with no
    division by zero for every group configuration (columns, which defaults
    to 1, taken nonzero — an explicit Grid columns = 0 panics, see C7); a
    single-item group never errors under any combination; and SpaceBetween
    with n = 1 along an axis yields inter-item spacing 0 (columns = 1
    horizontally, rows = 1 vertically). -/
theorem c6_degenerate (g : Group) (item : Item) (dc : DistributionConfig)
    (spacing columns boundsW boundsH : Nat) (l : List Item)
    (hg : g.layout.columns ≠ 0)
    (hH : dc.horizontal = some Distribution.spaceBetween)
    (hV : dc.vertical = some Distribution.spaceBetween) :
    calculate_positions g [] = some []
    ∧ (calculate_positions g [item]).isSome = true
    ∧ grid_h_spacing dc spacing 1 boundsW l = 0
    ∧ grid_v_spacing dc spacing columns 1 boundsH l = 0 := by
  have hgate : ¬(g.layout.layout_type = LayoutType.grid ∧ g.layout.columns = 0) :=
    fun hc => hg hc.2
  refine ⟨?_, ?_, ?_, ?_⟩
  · rw [calculate_positions_eq_raw g [] hgate, rawPositions_nil]
  · rw [calculate_positions_eq_raw g [item] hgate]; rfl
  · simp [grid_h_spacing, hH]
  · simp [grid_v_spacing, hV]

theorem c6_degenerate_witness :
    calculate_positions c6wgroup [] = some []
    ∧ (calculate_positions c6wgroup [c6witem]).isSome = true
    ∧ grid_h_spacing c6wdc 0 1 100 [] = 0
    ∧ grid_v_spacing c6wdc 0 1 1 100 [] = 0 :=
  c6_degenerate c6wgroup c6witem c6wdc 0 1 100 100 []
    (by decide) (by decide) (by decide)

/-- Claim C7, counterexample: a Grid group with an explicit columns = 0
    does not complete: the rows computation
    (len + columns - 1) / columns (src/main.rs 427) divides by zero and the
    Rust program panics, modelled here as none. -/
theorem c7_counterexample :
    c7group.layout.columns = 0
    ∧ calculate_positions c7group c7items = none
    ∧ calculate_positions c7group [] = none := by decide

/-- Claim C7, amended: columns defaults to 1 only when the template omits
    the field; an explicit columns = 0 is not clamped and makes Grid panic.
    For every group with columns ≥ 1 the computation, including the Grid
    rows step and the fallback row/column indexing, completes for every
    item list. -/
theorem c7_columns_pos_total (g : Group) (layers_info : List Item)
    (h : 1 ≤ g.layout.columns) :
    (calculate_positions g layers_info).isSome = true := by
  rw [calculate_positions_eq_raw g layers_info
      (fun hc => absurd hc.2 (by omega))]
  rfl

theorem c7_columns_pos_total_witness :
    (calculate_positions c7wgroup c7items).isSome = true :=
  c7_columns_pos_total c7wgroup c7items (by decide)

/-- Claim C8: in Stage 2 the base x is adjusted by Alignment against the
    container bound — DistributionConfig.bounds if present, else the
    Stage-1 aggregate extent: Left leaves x unchanged, Center adds half the
    slack (saturating), Right adds the full slack; and with a content-sized
    container the slack is zero, so the base is unchanged for every
    Alignment. (When a DistributionConfig is present without bounds the
    source skips the alignment call, which coincides with aligning against
    the content extent, whose slack is zero.) -/
theorem c8_stage2_alignment (g : Group) (tW tH : Nat) :
    currentX g tW tH
      = specStage2BaseX g.layout.position.align g.layout.position.x
          (specContainerWidth g tW - tW)
    ∧ (specContainerWidth g tW = tW → currentX g tW tH = g.layout.position.x) := by
  have main : currentX g tW tH
      = specStage2BaseX g.layout.position.align g.layout.position.x
          (specContainerWidth g tW - tW) := by
    rcases hd : g.layout.distribution with _ | dc
    · rcases ha : g.layout.position.align <;>
        simp [currentX, specContainerWidth, specStage2BaseX,
              GroupPosition.get_aligned_position, hd, ha, Nat.sub_self]
    · rcases hb : dc.bounds with _ | b
      · rcases ha : g.layout.position.align <;>
          simp [currentX, specContainerWidth, specStage2BaseX,
                GroupPosition.get_aligned_position, hd, hb, ha, Nat.sub_self]
      · rcases ha : g.layout.position.align <;>
          simp [currentX, specContainerWidth, specStage2BaseX,
                GroupPosition.get_aligned_position, hd, hb, ha]
  refine ⟨main, fun hc => ?_⟩
  rw [main, hc, Nat.sub_self]
  rcases g.layout.position.align <;> simp [specStage2BaseX]

theorem c8_stage2_alignment_witness :
    currentX c8wgroup 5 7 = c8wgroup.layout.position.x :=
  (c8_stage2_alignment c8wgroup 5 7).2 (by decide)

/-- Claim C9: a Grid of 4 uniform 50x50 items in 2 columns with spacing 10,
    no DistributionConfig and base (0,0) yields
    [(0,0),(60,0),(0,60),(60,60)] via the flat-spacing fallback path. -/
theorem c9_grid_fallback_example :
    calculate_positions c9group c9items
      = some [{ x := 0, y := 0, relative_to := RelativeTo.canvas },
              { x := 60, y := 0, relative_to := RelativeTo.canvas },
              { x := 0, y := 60, relative_to := RelativeTo.canvas },
              { x := 60, y := 60, relative_to := RelativeTo.canvas }] := by decide

/- Congruence machinery for claim C10: every stage of calculate_positions
   reads only the measured dimensions of the items (the relative pass also
   reads names, but never fires). -/

theorem takeEvery_map {α β : Type} (f : α → β) (k : Nat) :
    (l : List α) → takeEvery k (l.map f) = (takeEvery k l).map f
  | [] => by simp [takeEvery]
  | x :: xs => by
      simp only [List.map_cons, takeEvery]
      rw [← List.map_drop, takeEvery_map f k (xs.drop (k - 1))]
termination_by l => l.length
decreasing_by
  simp [List.length_drop]
  omega

theorem length_eq_of_dims {l1 l2 : List Item} (h : dimsOf l1 = dimsOf l2) :
    l1.length = l2.length := by
  have hl := congrArg List.length h
  simpa [dimsOf] using hl

theorem map_width_eq_of_dims {l1 l2 : List Item} (h : dimsOf l1 = dimsOf l2) :
    l1.map (fun p => p.1.width) = l2.map (fun p => p.1.width) := by
  have hw := congrArg (List.map LayerDimensions.width) h
  simpa [dimsOf, List.map_map, Function.comp] using hw

theorem map_height_eq_of_dims {l1 l2 : List Item} (h : dimsOf l1 = dimsOf l2) :
    l1.map (fun p => p.1.height) = l2.map (fun p => p.1.height) := by
  have hw := congrArg (List.map LayerDimensions.height) h
  simpa [dimsOf, List.map_map, Function.comp] using hw

theorem dimsOf_drop (l : List Item) (n : Nat) :
    dimsOf (l.drop n) = (dimsOf l).drop n := by
  simp [dimsOf, List.map_drop]

theorem dimsOf_take (l : List Item) (n : Nat) :
    dimsOf (l.take n) = (dimsOf l).take n := by
  simp [dimsOf, List.map_take]

theorem dimsOf_takeEvery (l : List Item) (k : Nat) :
    dimsOf (takeEvery k l) = takeEvery k (dimsOf l) := by
  rw [dimsOf, dimsOf, takeEvery_map]

theorem totalExtent_congr (g : Group) {l1 l2 : List Item}
    (h : dimsOf l1 = dimsOf l2) :
    totalExtent g l1 = totalExtent g l2 := by
  have hlen := length_eq_of_dims h
  rcases hlt : g.layout.layout_type with _ | _ | _ <;> simp only [totalExtent, hlt]
  · rw [map_width_eq_of_dims h, map_height_eq_of_dims h, hlen]
  · rw [map_width_eq_of_dims h, map_height_eq_of_dims h, hlen]
  · have hcol : (fun col => listMax
          ((takeEvery g.layout.columns (l1.drop col)).map (fun p => p.1.width)))
        = (fun col => listMax
          ((takeEvery g.layout.columns (l2.drop col)).map (fun p => p.1.width))) := by
      funext col
      have hsub : dimsOf (takeEvery g.layout.columns (l1.drop col))
          = dimsOf (takeEvery g.layout.columns (l2.drop col)) := by
        rw [dimsOf_takeEvery, dimsOf_takeEvery, dimsOf_drop, dimsOf_drop, h]
      rw [map_width_eq_of_dims hsub]
    have hrow : (fun row => listMax
          (((l1.drop (row * g.layout.columns)).take g.layout.columns).map
            (fun p => p.1.height)))
        = (fun row => listMax
          (((l2.drop (row * g.layout.columns)).take g.layout.columns).map
            (fun p => p.1.height))) := by
      funext row
      have hsub : dimsOf ((l1.drop (row * g.layout.columns)).take g.layout.columns)
          = dimsOf ((l2.drop (row * g.layout.columns)).take g.layout.columns) := by
        rw [dimsOf_take, dimsOf_take, dimsOf_drop, dimsOf_drop, h]
      rw [map_height_eq_of_dims hsub]
    rw [hlen, hcol, hrow]

theorem gridBounds_congr (dc : DistributionConfig) (columns rows : Nat)
    {l1 l2 : List Item} (h : dimsOf l1 = dimsOf l2) :
    gridBounds dc columns rows l1 = gridBounds dc columns rows l2 := by
  have hsubW : dimsOf (l1.take columns) = dimsOf (l2.take columns) := by
    rw [dimsOf_take, dimsOf_take, h]
  have hsubH : dimsOf ((takeEvery columns l1).take rows)
      = dimsOf ((takeEvery columns l2).take rows) := by
    rw [dimsOf_take, dimsOf_take, dimsOf_takeEvery, dimsOf_takeEvery, h]
  rcases hb : dc.bounds with _ | b <;> simp only [gridBounds, hb]
  rw [map_width_eq_of_dims hsubW, map_height_eq_of_dims hsubH]

theorem grid_h_spacing_congr (dc : DistributionConfig)
    (spacing columns boundsW : Nat) {l1 l2 : List Item}
    (h : dimsOf l1 = dimsOf l2) :
    grid_h_spacing dc spacing columns boundsW l1
      = grid_h_spacing dc spacing columns boundsW l2 := by
  have hsub : dimsOf (l1.take columns) = dimsOf (l2.take columns) := by
    rw [dimsOf_take, dimsOf_take, h]
  have hw : (l1.take columns).map (fun p => p.1.width)
      = (l2.take columns).map (fun p => p.1.width) :=
    map_width_eq_of_dims hsub
  rcases hh : dc.horizontal with _ | d
  · simp only [grid_h_spacing, hh]
  · rcases d <;> simp only [grid_h_spacing, hh] <;> rw [hw]

theorem grid_v_spacing_congr (dc : DistributionConfig)
    (spacing columns rows boundsH : Nat) {l1 l2 : List Item}
    (h : dimsOf l1 = dimsOf l2) :
    grid_v_spacing dc spacing columns rows boundsH l1
      = grid_v_spacing dc spacing columns rows boundsH l2 := by
  have hsub : dimsOf ((takeEvery columns l1).take rows)
      = dimsOf ((takeEvery columns l2).take rows) := by
    rw [dimsOf_take, dimsOf_take, dimsOf_takeEvery, dimsOf_takeEvery, h]
  have hw : ((takeEvery columns l1).take rows).map (fun p => p.1.height)
      = ((takeEvery columns l2).take rows).map (fun p => p.1.height) :=
    map_height_eq_of_dims hsub
  rcases hv : dc.vertical with _ | d
  · simp only [grid_v_spacing, hv]
  · rcases d <;> simp only [grid_v_spacing, hv] <;> rw [hw]

theorem verticalPlace_congr (cx cy s : Nat) :
    ∀ {l1 l2 : List Item}, dimsOf l1 = dimsOf l2 →
      ∀ yOff, verticalPlace cx cy s yOff l1 = verticalPlace cx cy s yOff l2 := by
  intro l1
  induction l1 with
  | nil =>
      intro l2 h yOff
      cases l2 with
      | nil => rfl
      | cons b t => simp [dimsOf] at h
  | cons a t ih =>
      intro l2 h yOff
      cases l2 with
      | nil => simp [dimsOf] at h
      | cons b t2 =>
          cases a with
          | mk ad ai =>
              cases b with
              | mk bd bi =>
                  simp only [dimsOf, List.map_cons, List.cons.injEq] at h
                  obtain ⟨h1, h2⟩ := h
                  subst h1
                  simp only [verticalPlace]
                  rw [ih h2]

theorem horizontalPlace_congr (cx cy s : Nat) :
    ∀ {l1 l2 : List Item}, dimsOf l1 = dimsOf l2 →
      ∀ xOff, horizontalPlace cx cy s xOff l1 = horizontalPlace cx cy s xOff l2 := by
  intro l1
  induction l1 with
  | nil =>
      intro l2 h xOff
      cases l2 with
      | nil => rfl
      | cons b t => simp [dimsOf] at h
  | cons a t ih =>
      intro l2 h xOff
      cases l2 with
      | nil => simp [dimsOf] at h
      | cons b t2 =>
          cases a with
          | mk ad ai =>
              cases b with
              | mk bd bi =>
                  simp only [dimsOf, List.map_cons, List.cons.injEq] at h
                  obtain ⟨h1, h2⟩ := h
                  subst h1
                  simp only [horizontalPlace]
                  rw [ih h2]

theorem gridFallback_congr (cx cy s columns : Nat) :
    ∀ {l1 l2 : List Item}, dimsOf l1 = dimsOf l2 →
      ∀ i, gridFallback cx cy s columns i l1 = gridFallback cx cy s columns i l2 := by
  intro l1
  induction l1 with
  | nil =>
      intro l2 h i
      cases l2 with
      | nil => rfl
      | cons b t => simp [dimsOf] at h
  | cons a t ih =>
      intro l2 h i
      cases l2 with
      | nil => simp [dimsOf] at h
      | cons b t2 =>
          cases a with
          | mk ad ai =>
              cases b with
              | mk bd bi =>
                  simp only [dimsOf, List.map_cons, List.cons.injEq] at h
                  obtain ⟨h1, h2⟩ := h
                  subst h1
                  simp only [gridFallback]
                  rw [ih h2]

theorem gridPlaceLoop_congr (columns hs vs startX : Nat) :
    ∀ {l1 l2 : List Item}, dimsOf l1 = dimsOf l2 →
      ∀ x y col, gridPlaceLoop columns hs vs startX x y col l1
        = gridPlaceLoop columns hs vs startX x y col l2 := by
  intro l1
  induction l1 with
  | nil =>
      intro l2 h x y col
      cases l2 with
      | nil => rfl
      | cons b t => simp [dimsOf] at h
  | cons a t ih =>
      intro l2 h x y col
      cases l2 with
      | nil => simp [dimsOf] at h
      | cons b t2 =>
          cases a with
          | mk ad ai =>
              cases b with
              | mk bd bi =>
                  simp only [dimsOf, List.map_cons, List.cons.injEq] at h
                  obtain ⟨h1, h2⟩ := h
                  subst h1
                  simp only [gridPlaceLoop]
                  split <;> rw [ih h2]

theorem rawPositions_congr (g : Group) {l1 l2 : List Item}
    (h : dimsOf l1 = dimsOf l2) :
    rawPositions g l1 = rawPositions g l2 := by
  have hte := totalExtent_congr g h
  have hlen := length_eq_of_dims h
  simp only [rawPositions]
  rw [hte]
  rcases hlt : g.layout.layout_type with _ | _ | _ <;> simp only [hlt]
  · exact verticalPlace_congr _ _ _ h _
  · exact horizontalPlace_congr _ _ _ h _
  · rcases hd : g.layout.distribution with _ | dc <;> simp only [hd]
    · exact gridFallback_congr _ _ _ _ h _
    · rw [hlen, gridBounds_congr dc _ _ h, grid_h_spacing_congr dc _ _ _ h,
          grid_v_spacing_congr dc _ _ _ _ h]
      exact gridPlaceLoop_congr _ _ _ _ h _ _ _

theorem dims_of_projEq :
    ∀ {l1 l2 : List Item},
      l1.map (fun p => (p.1, p.2.name)) = l2.map (fun p => (p.1, p.2.name)) →
      dimsOf l1 = dimsOf l2 := by
  intro l1
  induction l1 with
  | nil =>
      intro l2 h
      cases l2 with
      | nil => rfl
      | cons b t => simp at h
  | cons a t ih =>
      intro l2 h
      cases l2 with
      | nil => simp at h
      | cons b t2 =>
          simp only [List.map_cons, List.cons.injEq, Prod.mk.injEq] at h
          obtain ⟨⟨h1, _⟩, h2⟩ := h
          simp only [dimsOf, List.map_cons, List.cons.injEq]
          exact ⟨h1, ih h2⟩

/-- Claim C10: the output of calculate_positions depends only on the layout
    policy and each layer's measured dimensions and name — two item lists
    that differ only in the layers' declared Position fields produce
    identical outputs — and every returned Position carries
    relativeTo = Canvas. -/
theorem c10_noninterference (g : Group) (l1 l2 : List Item)
    (h : l1.map (fun p => (p.1, p.2.name)) = l2.map (fun p => (p.1, p.2.name))) :
    calculate_positions g l1 = calculate_positions g l2
    ∧ ∀ ps, calculate_positions g l1 = some ps →
        ∀ p ∈ ps, p.relative_to = RelativeTo.canvas := by
  have hdim : dimsOf l1 = dimsOf l2 := dims_of_projEq h
  constructor
  · by_cases hg : g.layout.layout_type = LayoutType.grid ∧ g.layout.columns = 0
    · rw [calculate_positions, if_pos hg, calculate_positions, if_pos hg]
    · rw [calculate_positions_eq_raw g l1 hg, calculate_positions_eq_raw g l2 hg,
          rawPositions_congr g hdim]
  · intro ps hps p hp
    by_cases hg : g.layout.layout_type = LayoutType.grid ∧ g.layout.columns = 0
    · rw [calculate_positions, if_pos hg] at hps
      exact Option.noConfusion hps
    · rw [calculate_positions_eq_raw g l1 hg] at hps
      injection hps with hps
      rw [← hps] at hp
      exact rawPositions_canvas g l1 p hp

theorem c10_noninterference_witness :
    calculate_positions c10group c10l1 = calculate_positions c10group c10l2 :=
  (c10_noninterference c10group c10l1 c10l2 (by decide)).1

end KIT
